import Mathlib

/-!
Shallow embedding of the isskindiagnostics backend core:
the clinical-impression normalizer and agreement scorer from
src/tests/comparison/compare_ai_dermatologists.py, the letterbox image
normalizer and the predict response assembly from src/app/main.py, and the
binary-model evaluator extraction from src/tests/evaluation/evaluate_models.py.

Modelling conventions:
- Python values that may be NaN/None/non-string are `Option String`
  (`none` models the values for which `pd.isna` holds or that are not `str`).
- Python floats are idealized as exact rationals `ℚ`.
- Python dicts appear as association lists in insertion order; dict lookup is
  first-match lookup, dict iteration is list order (Python 3.7+ semantics).
- Fallible code returns `Except PyError`.
-/

namespace Isskin

/-- Errors a Python function can raise. `zeroDivisionError` models Python's
built-in ZeroDivisionError. `invalidImageError` is the error kind named by the
design spec; it does not occur in the source and is present only so that
statements can compare against it. -/
inductive PyError where
  | zeroDivisionError
  | invalidImageError
deriving DecidableEq

/-- Does the character list `needle` occur at the start of `hay`?
Building block for Python's substring operator. -/
def leads : List Char → List Char → Bool
  | [], _ => true
  | _ :: _, [] => false
  | a :: as, b :: bs => a == b && leads as bs

/-- Python's `needle in hay` on strings, over character lists: true iff
`needle` is a contiguous substring of `hay`. Note `[] ` occurs in every list,
matching Python where the empty string is a substring of every string. -/
def pySubList (needle : List Char) : List Char → Bool
  | [] => needle.isEmpty
  | c :: rest => leads needle (c :: rest) || pySubList needle rest

/-- Python's `a in b` on strings. -/
def pyIn (a b : String) : Bool := pySubList a.data b.data

/-- Python's `str.strip()`: drop whitespace from both ends. -/
def pyStrip (l : List Char) : List Char :=
  ((l.dropWhile Char.isWhitespace).reverse.dropWhile Char.isWhitespace).reverse

/-- Python's `impression.lower().strip()` as used by the normalizer
(the inputs' non-ASCII characters are already lowercase, so ASCII
lowercasing is faithful here). -/
def pyLowerStrip (s : String) : String :=
  String.mk (pyStrip (s.data.map Char.toLower))

/-- The `clinical_to_dx_mapping` dict of `IsskinvsDermatologistsComparison`,
as an association list in the source's insertion order. -/
def clinical_to_dx_mapping : List (String × String) :=
  [("melanoma", "melanoma"),
   ("melanoma maligno", "melanoma"),
   ("melanoma invasivo", "melanoma"),
   ("melanoma in situ", "melanoma"),
   ("basal cell carcinoma", "bcc"),
   ("carcinoma basocelular", "bcc"),
   ("bcc", "bcc"),
   ("squamous cell carcinoma", "scc"),
   ("carcinoma espinocelular", "scc"),
   ("carcinoma de células escamosas", "scc"),
   ("scc", "scc"),
   ("actinic keratosis", "ak"),
   ("queratose actínica", "ak"),
   ("queratose actinica", "ak"),
   ("ak", "ak"),
   ("nevus", "nevus"),
   ("nevo", "nevus"),
   ("nevo melanocítico", "nevus"),
   ("nevo melanocitico", "nevus"),
   ("melanocytic nevus", "nevus"),
   ("dermatofibroma", "df"),
   ("df", "df"),
   ("seborrheic keratosis", "seborrheic_keratosis"),
   ("queratose seborreica", "seborrheic_keratosis"),
   ("queratose seborréica", "seborrheic_keratosis"),
   ("sk", "seborrheic_keratosis"),
   ("lentigo", "lentigo"),
   ("lentigo solar", "lentigo"),
   ("solar lentigo", "lentigo"),
   ("vascular lesion", "vasc"),
   ("lesão vascular", "vasc"),
   ("lesao vascular", "vasc"),
   ("vasc", "vasc"),
   ("angioma", "vasc"),
   ("hemangioma", "vasc")]

/-- The fuzzy-matching tier: first mapping entry whose term is a substring of
the cleaned input or vice versa (source lines 148-151). -/
def fuzzyMatch (clean : String) : Option String :=
  (clinical_to_dx_mapping.find? (fun p => pyIn p.1 clean || pyIn clean p.1)).map
    (fun p => p.2)

/-- The keyword-pattern fallback tier: the ordered if/elif chain of
`any(term in impression_clean for term in [...])` checks (source lines 153-171). -/
def patternMatch (clean : String) : Option String :=
  if ["melanoma", "melanocítico maligno"].any (fun t => pyIn t clean) then
    some "melanoma"
  else if ["basal", "bcc"].any (fun t => pyIn t clean) then some "bcc"
  else if ["escamosas", "espinocelular", "scc"].any (fun t => pyIn t clean) then
    some "scc"
  else if ["actínica", "actinica", "ak"].any (fun t => pyIn t clean) then
    some "ak"
  else if ["nevo", "nevus", "melanocítico benigno"].any (fun t => pyIn t clean) then
    some "nevus"
  else if ["dermatofibroma", "df"].any (fun t => pyIn t clean) then some "df"
  else if ["seborreica", "seborréica", "sk"].any (fun t => pyIn t clean) then
    some "seborrheic_keratosis"
  else if ["lentigo", "solar"].any (fun t => pyIn t clean) then some "lentigo"
  else if ["vascular", "angioma", "hemangioma"].any (fun t => pyIn t clean) then
    some "vasc"
  else none

/-- `normalize_clinical_impression` (source lines 137-173). The input is
`none` when `pd.isna(impression)` holds or the value is not a string. -/
def normalize_clinical_impression (impression : Option String) : String :=
  match impression with
  | none => "unknown"
  | some s =>
    let impression_clean := pyLowerStrip s
    match clinical_to_dx_mapping.find? (fun p => p.1 == impression_clean) with
    | some p => p.2
    | none =>
      match fuzzyMatch impression_clean with
      | some c => c
      | none =>
        match patternMatch impression_clean with
        | some c => c
        | none => "unknown"

/-- `normalize_binary_classification` (source lines 175-186). -/
def normalize_binary_classification (impression : Option String) : String :=
  let dx_category := normalize_clinical_impression impression
  if dx_category == "unknown" then "unknown"
  else if ["melanoma", "bcc", "scc", "ak"].contains dx_category then "malignant"
  else "benign"

/-- Modelled from the spec's words (section 3): the malignant-set rule deriving
a BinaryLabel from a DiagnosticCategory, stated in the spec's order: category
in the malignant set gives malignant, unknown gives unknown, else benign. -/
def binaryLabelOfCategory (c : String) : String :=
  if ["melanoma", "bcc", "scc", "ak"].contains c then "malignant"
  else if c == "unknown" then "unknown"
  else "benign"

/-- An AI prediction payload as returned by the `/predict/` endpoint and
stored in the `ai_prediction` column: the two class-to-confidence dicts
(confidences are percentages). -/
structure PredData where
  binary_prediction : List (String × ℚ)
  dx_prediction : List (String × ℚ)

/-- One row of the analysis DataFrame built by `create_analysis_dataset`:
ground-truth labels (possibly NaN) and the AI prediction (None on failure). -/
structure AnalysisRow where
  ground_truth_binary : Option String
  ground_truth_dx : Option String
  ai_prediction : Option PredData

/-- Python dict lookup `d.get(k)` / `d[k]` on a dict held as an association
list (keys unique, insertion order). -/
def dictGet (d : List (String × ℚ)) (k : String) : Option ℚ :=
  (d.find? (fun p => p.1 == k)).map (fun p => p.2)

/-- The prediction extraction inside `calculate_isskin_accuracy_binary`
(source lines 310-323): None or a payload missing the malignant/benign keys
is counted as class 0 (benign); otherwise class 1 iff the malignant
probability exceeds the benign one. -/
def extract_binary_pred (ai : Option PredData) : ℤ :=
  match ai with
  | none => 0
  | some pred_data =>
    match dictGet pred_data.binary_prediction "malignant",
          dictGet pred_data.binary_prediction "benign" with
    | some m, some b => if m / 100 > b / 100 then 1 else 0
    | _, _ => 0

/-- The `binary_mapping` dict {malignant: 1, benign: 0} as a lookup;
`none` when the ground truth is NaN or not a key of the dict. -/
def binary_mapping_lookup (gt : Option String) : Option ℤ :=
  match gt with
  | some s => if s == "malignant" then some 1
              else if s == "benign" then some 0 else none
  | none => none

/-- The (y_true, y_pred) pairs accumulated by the loop of
`calculate_isskin_accuracy_binary` (source lines 305-323): one pair per row
whose ground truth is a key of `binary_mapping`. -/
def binary_pairs : List AnalysisRow → List (ℤ × ℤ)
  | [] => []
  | r :: rest =>
    match binary_mapping_lookup r.ground_truth_binary with
    | some t => (t, extract_binary_pred r.ai_prediction) :: binary_pairs rest
    | none => binary_pairs rest

/-- sklearn's `accuracy_score` on paired label lists: the fraction of equal
pairs. -/
def accuracy_score {α : Type} [BEq α] (pairs : List (α × α)) : ℚ :=
  ((pairs.filter (fun p => p.1 == p.2)).length : ℚ) / (pairs.length : ℚ)

/-- `calculate_isskin_accuracy_binary` (source lines 299-328). -/
def calculate_isskin_accuracy_binary (rows : List AnalysisRow) : ℚ :=
  let ps := binary_pairs rows
  if ps.length = 0 then 0 else accuracy_score ps

/-- Python's `max(d.keys(), key=d.get)` on a nonempty dict: the first key of
maximal value in insertion order (later entries replace only on strictly
greater value). -/
def maxKeyByVal (h : String × ℚ) (t : List (String × ℚ)) : String :=
  (t.foldl (fun best p => if p.2 > best.2 then p else best) h).1

/-- The dx prediction extraction shared by `calculate_isskin_accuracy_dx` and
`extract_isskin_predictions` (source lines 338-347): None or an empty dx dict
gives unknown, otherwise the argmax class. -/
def extract_dx_pred (ai : Option PredData) : String :=
  match ai with
  | none => "unknown"
  | some pred_data =>
    match pred_data.dx_prediction with
    | [] => "unknown"
    | h :: t => maxKeyByVal h t

/-- The (y_true, y_pred) pairs accumulated by `calculate_isskin_accuracy_dx`
(source lines 334-352): rows with non-NaN dx ground truth and a non-unknown
extracted prediction. -/
def dx_pairs : List AnalysisRow → List (String × String)
  | [] => []
  | r :: rest =>
    match r.ground_truth_dx with
    | some gt =>
      let pred := extract_dx_pred r.ai_prediction
      if pred == "unknown" then dx_pairs rest else (gt, pred) :: dx_pairs rest
    | none => dx_pairs rest

/-- `calculate_isskin_accuracy_dx` (source lines 330-357). -/
def calculate_isskin_accuracy_dx (rows : List AnalysisRow) : ℚ :=
  let ps := dx_pairs rows
  if ps.length = 0 then 0 else accuracy_score ps

/-- A prediction value is resolvable when it is a present (non-NaN) string
other than the sentinel unknown: the conjunction of Python's
`p != 'unknown'` and `pd.notna(p)` used throughout the scorer. -/
def resolvable (x : Option String) : Bool :=
  match x with
  | none => false
  | some s => !(s == "unknown")

/-- The comparable pairs of `calculate_agreement_and_accuracy` (source lines
383-391): the zipped (AI, doctor) prediction pairs at the
`agreement_valid_indices`, i.e. where both sides are resolvable. The source
collects valid indices and re-indexes both lists; filtering the zip yields
the same filtered parallel lists. -/
def comparable_pairs (isskin_preds doctor_preds : List (Option String)) :
    List (Option String × Option String) :=
  (isskin_preds.zip doctor_preds).filter
    (fun p => resolvable p.1 && resolvable p.2)

/-- sklearn's `cohen_kappa_score` on parallel label lists, idealized over ℚ:
observed agreement po, chance agreement pe from the marginals, and
kappa = (po - pe) / (1 - pe). (When pe = 1, sklearn's division yields NaN;
the ℚ idealization yields 0 since division by zero is 0 in ℚ.) -/
def cohen_kappa_score (a b : List (Option String)) : ℚ :=
  let n : ℚ := (a.length : ℚ)
  let labels := (a ++ b).dedup
  let po : ℚ := (((a.zip b).filter (fun p => p.1 == p.2)).length : ℚ) / n
  let pe : ℚ :=
    (labels.map (fun l => ((a.count l : ℚ)) * ((b.count l : ℚ)))).sum / (n * n)
  (po - pe) / (1 - pe)

/-- Which isskin accuracy the scorer computes (the `classification_type`
argument). -/
inductive ClassificationType where
  | binary
  | dx
deriving DecidableEq

/-- The result dict returned by `calculate_agreement_and_accuracy`
(source lines 411-423), one field per key. -/
structure AgreementResult where
  total_isskin_predictions : ℕ
  total_doctor_predictions : ℕ
  total_comparable_cases : ℕ
  agreement_rate : ℚ
  disagreement_rate : ℚ
  cohen_kappa : ℚ
  isskin_accuracy : ℚ
  doctor_accuracy : ℚ
  accuracy_difference : ℚ
  agreements : ℕ
  disagreements : ℕ

/-- `calculate_agreement_and_accuracy` (source lines 359-423). The doctor
accuracy filter keeps indices with a resolvable doctor prediction and non-NaN
ground truth; the agreement filter keeps indices where both AI and doctor are
resolvable; `agreements` in the returned dict is `len - sum` and
`disagreements` is `sum` of the boolean equality list, exactly as in the
source. -/
def calculate_agreement_and_accuracy
    (isskin_preds doctor_preds ground_truth : List (Option String))
    (analysis_df : List AnalysisRow)
    (classification_type : ClassificationType) : AgreementResult :=
  let isskin_accuracy :=
    match classification_type with
    | .binary => calculate_isskin_accuracy_binary analysis_df
    | .dx => calculate_isskin_accuracy_dx analysis_df
  let doctor_pairs :=
    (doctor_preds.zip ground_truth).filter
      (fun p => resolvable p.1 && p.2.isSome)
  let doctor_accuracy : ℚ :=
    if 0 < doctor_pairs.length then
      accuracy_score (doctor_pairs.map (fun p => (p.2, p.1)))
    else 0
  let agr_pairs := comparable_pairs isskin_preds doctor_preds
  let agreements : List Bool :=
    if 0 < agr_pairs.length then agr_pairs.map (fun p => p.1 == p.2) else []
  let agreement_rate : ℚ :=
    if 0 < agr_pairs.length then
      ((agreements.count true : ℚ)) / ((agreements.length : ℚ))
    else 0
  let kappa : ℚ :=
    if 0 < agr_pairs.length then
      cohen_kappa_score (agr_pairs.map (fun p => p.1)) (agr_pairs.map (fun p => p.2))
    else 0
  { total_isskin_predictions := (isskin_preds.filter resolvable).length
    total_doctor_predictions := doctor_pairs.length
    total_comparable_cases := agr_pairs.length
    agreement_rate := agreement_rate
    disagreement_rate := 1 - agreement_rate
    cohen_kappa := kappa
    isskin_accuracy := isskin_accuracy
    doctor_accuracy := doctor_accuracy
    accuracy_difference := isskin_accuracy - doctor_accuracy
    agreements := if agreements.isEmpty then 0
                  else agreements.length - agreements.count true
    disagreements := if agreements.isEmpty then 0 else agreements.count true }

/-- The prediction extraction of `evaluate_binary_model` in
src/tests/evaluation/evaluate_models.py (lines 108-129): the appended
(pred class, pred probability) pair for one row; a NaN prediction or one
missing the malignant/benign keys yields class 0 (benign) with probability
0.5. -/
def evaluate_binary_extract (prediction : Option PredData) : ℤ × ℚ :=
  match prediction with
  | none => (0, 1 / 2)
  | some pred_data =>
    match dictGet pred_data.binary_prediction "malignant",
          dictGet pred_data.binary_prediction "benign" with
    | some m, some b =>
      let malignant_prob := m / 100
      let benign_prob := b / 100
      let pred_class : ℤ := if malignant_prob > benign_prob then 1 else 0
      (pred_class, if pred_class = 1 then malignant_prob else benign_prob)
    | _, _ => (0, 1 / 2)

/-- A predicate naming the failed-prediction cases of the claim: the AI
prediction is null, or its binary dict is missing the malignant or the benign
key. -/
def aiPredFailed (ai : Option PredData) : Prop :=
  ai = none ∨ ∃ pred_data, ai = some pred_data ∧
    (dictGet pred_data.binary_prediction "malignant" = none ∨
     dictGet pred_data.binary_prediction "benign" = none)

/-- Python's `int()` on a float, idealized over ℚ: truncation toward zero. -/
def pyInt (q : ℚ) : ℤ := if 0 ≤ q then ⌊q⌋ else ⌈q⌉

/-- The geometric content of `letterbox_image` (src/app/main.py lines 31-41):
the canvas dimensions of the returned image, the dimensions the content is
resized to, and the paste offsets. -/
structure LetterboxResult where
  canvas_w : ℕ
  canvas_h : ℕ
  content_w : ℤ
  content_h : ℤ
  off_x : ℤ
  off_y : ℤ
deriving DecidableEq

/-- `letterbox_image` (src/app/main.py lines 31-41) at the level of
dimensions. `image.size` is (iw, ih), the target `size` is (w, h). With
`iw = 0` or `ih = 0` the expression `min(w / iw, h / ih)` raises
ZeroDivisionError; otherwise scale, the truncated content dimensions
`int(iw * scale)` and `int(ih * scale)`, the canvas created at exactly
`size`, and the floor-division paste offsets follow the source. -/
def letterbox_image (iw ih w h : ℕ) : Except PyError LetterboxResult :=
  if iw = 0 ∨ ih = 0 then Except.error PyError.zeroDivisionError
  else
    let scale : ℚ := min ((w : ℚ) / (iw : ℚ)) ((h : ℚ) / (ih : ℚ))
    let nw : ℤ := pyInt ((iw : ℚ) * scale)
    let nh : ℤ := pyInt ((ih : ℚ) * scale)
    Except.ok { canvas_w := w, canvas_h := h, content_w := nw, content_h := nh,
                off_x := ((w : ℤ) - nw).fdiv 2, off_y := ((h : ℤ) - nh).fdiv 2 }

/-- Python's `round()` to an integer, idealized over ℚ: round half to even. -/
def pyRoundInt (x : ℚ) : ℤ :=
  let f := ⌊x⌋
  if x - (f : ℚ) < 1 / 2 then f
  else if (1 : ℚ) / 2 < x - (f : ℚ) then f + 1
  else if f % 2 = 0 then f else f + 1

/-- Python's `round(x, n)` for n ≥ 0, idealized over ℚ. -/
def pyRound (x : ℚ) (n : ℕ) : ℚ := ((pyRoundInt (x * 10 ^ n) : ℚ)) / 10 ^ n

/-- The confidence dict built by `predict` (src/app/main.py lines 77-85):
`{class_names[i]: round(prob * 100, 2) for i, prob in enumerate(probs)}`.
The class-names dict is indexed 0..k-1 aligned with the probability list, so
the comprehension pairs them positionally. -/
def prediction_map (class_names : List String) (probs : List ℚ) :
    List (String × ℚ) :=
  (class_names.zip probs).map (fun p => (p.1, pyRound (p.2 * 100) 2))

/-- The timing dict built by `predict` (src/app/main.py lines 68 and 75):
`{k: round(v / 1000, 4) for k, v in speed.items()}`, converting the
model-reported milliseconds to seconds. -/
def timing_map (speed : List (String × ℚ)) : List (String × ℚ) :=
  speed.map (fun p => (p.1, pyRound (p.2 / 1000) 4))

/-- The JSON body assembled by `predict` (src/app/main.py lines 87-96),
minus the image-path metadata. -/
structure PredictResponse where
  binary_prediction : List (String × ℚ)
  dx_prediction : List (String × ℚ)
  processing_time_binary : List (String × ℚ)
  processing_time_dx : List (String × ℚ)

/-- The response assembly of `predict` (src/app/main.py lines 57-96), given
the class names, raw per-class probabilities and millisecond stage timings
reported by each of the two models. -/
def predict (class_names_binary : List String) (probs_binary : List ℚ)
    (speed_binary : List (String × ℚ))
    (class_names_dx : List String) (probs_dx : List ℚ)
    (speed_dx : List (String × ℚ)) : PredictResponse :=
  { binary_prediction := prediction_map class_names_binary probs_binary
    dx_prediction := prediction_map class_names_dx probs_dx
    processing_time_binary := timing_map speed_binary
    processing_time_dx := timing_map speed_dx }

/-! Helper lemmas shared by several developments. -/

theorem count_true_map_eq_length_filter {α : Type} (f : α → Bool) :
    ∀ l : List α, (l.map f).count true = (l.filter f).length := by
  intro l
  induction l with
  | nil => simp
  | cons a t ih =>
    by_cases h : f a = true <;> simp [List.count_cons, h, ih]

theorem count_false_map_eq_length_filter_not {α : Type} (f : α → Bool) :
    ∀ l : List α,
      (l.filter (fun x => !(f x))).length + (l.map f).count true = l.length := by
  intro l
  induction l with
  | nil => simp
  | cons a t ih =>
    by_cases h : f a = true <;> simp [List.count_cons, h] <;> omega

theorem binary_pairs_length (rows : List AnalysisRow) :
    (binary_pairs rows).length =
      (rows.filter
        (fun x => (binary_mapping_lookup x.ground_truth_binary).isSome)).length := by
  induction rows with
  | nil => rfl
  | cons r t ih =>
    unfold binary_pairs
    cases h : binary_mapping_lookup r.ground_truth_binary <;>
      simp [h, ih]

theorem pyRoundInt_nonneg (x : ℚ) (hx : 0 ≤ x) : 0 ≤ pyRoundInt x := by
  have hf : (0 : ℤ) ≤ ⌊x⌋ := Int.floor_nonneg.mpr hx
  unfold pyRoundInt
  dsimp only
  split_ifs <;> omega

theorem pyRoundInt_le (x : ℚ) (B : ℤ) (hx : x ≤ (B : ℚ)) : pyRoundInt x ≤ B := by
  have hf : ⌊x⌋ ≤ B := by
    have := Int.floor_le_floor (α := ℚ) hx
    rwa [Int.floor_intCast] at this
  unfold pyRoundInt
  dsimp only
  split_ifs with h1 h2 h3
  · exact hf
  · -- here 1/2 < x - ⌊x⌋, so ⌊x⌋ < B and ⌊x⌋ + 1 ≤ B
    have hlt : (⌊x⌋ : ℚ) < (B : ℚ) := by
      have := Int.floor_le x
      linarith
    have : ⌊x⌋ < B := by exact_mod_cast hlt
    omega
  · exact hf
  · have hlt : (⌊x⌋ : ℚ) < (B : ℚ) := by
      have h12 : x - (⌊x⌋ : ℚ) = 1 / 2 := le_antisymm (not_lt.mp h2) (not_lt.mp h1)
      linarith
    have : ⌊x⌋ < B := by exact_mod_cast hlt
    omega

theorem pyRound_nonneg (x : ℚ) (n : ℕ) (hx : 0 ≤ x) : 0 ≤ pyRound x n := by
  unfold pyRound
  apply div_nonneg
  · exact Int.cast_nonneg.mpr (pyRoundInt_nonneg (x * 10 ^ n) (by positivity))
  · positivity

theorem pyRound_le_intBound (x : ℚ) (n : ℕ) (B : ℤ) (hx : x ≤ (B : ℚ)) :
    pyRound x n ≤ (B : ℚ) := by
  unfold pyRound
  rw [div_le_iff₀ (by positivity : (0 : ℚ) < 10 ^ n)]
  have harg : x * 10 ^ n ≤ ((B * 10 ^ n : ℤ) : ℚ) := by
    push_cast
    exact mul_le_mul_of_nonneg_right hx (by positivity)
  have hle : pyRoundInt (x * 10 ^ n) ≤ B * 10 ^ n :=
    pyRoundInt_le (x * 10 ^ n) (B * 10 ^ n) harg
  have hc : ((pyRoundInt (x * 10 ^ n) : ℤ) : ℚ) ≤ ((B * 10 ^ n : ℤ) : ℚ) :=
    Int.cast_le.mpr hle
  push_cast at hc
  linarith

/-! Claim theorems. -/

/-- C1: spec test vectors for normalize_clinical_impression. The code agrees
on the Melanoma maligno, queratose actínica and xyz-unmappable vectors and on
non-string input, but on the empty string the fuzzy substring tier matches
every mapping key (the empty string is a substring of each), so the first
entry wins and the result is melanoma, not unknown as claimed. -/
theorem normalize_clinical_impression_test_vectors :
    normalize_clinical_impression (some "Melanoma maligno") = "melanoma" ∧
    normalize_clinical_impression (some "queratose actínica") = "ak" ∧
    normalize_clinical_impression (some "xyz-unmappable") = "unknown" ∧
    normalize_clinical_impression none = "unknown" ∧
    normalize_clinical_impression (some "") = "melanoma" := by
  refine ⟨by decide, by decide, by decide, rfl, by decide⟩

/-- C7: normalize_binary_classification agrees with the spec's malignant-set
rule applied to the category computed by normalize_clinical_impression, for
every input. -/
theorem normalize_binary_consistent_with_category (t : Option String) :
    normalize_binary_classification t =
      binaryLabelOfCategory (normalize_clinical_impression t) := by
  unfold normalize_binary_classification binaryLabelOfCategory
  set c := normalize_clinical_impression t with hc
  by_cases h2 : c = "unknown"
  · simp [h2]
  · simp [h2]

/-- C4: for any input image with positive dimensions and any target size, the
letterboxed image succeeds and its canvas dimensions are exactly the target
size. -/
theorem letterbox_output_dimensions (iw ih w h : ℕ)
    (hiw : 1 ≤ iw) (hih : 1 ≤ ih) :
    ∃ r, letterbox_image iw ih w h = Except.ok r ∧
      r.canvas_w = w ∧ r.canvas_h = h := by
  unfold letterbox_image
  have hz : ¬(iw = 0 ∨ ih = 0) := by omega
  simp only [hz, if_false]
  exact ⟨_, rfl, rfl, rfl⟩

/-- C4 witness: a concrete 3x2 input at target 640x640. -/
theorem letterbox_output_dimensions_witness :
    ∃ r, letterbox_image 3 2 640 640 = Except.ok r ∧
      r.canvas_w = 640 ∧ r.canvas_h = 640 :=
  letterbox_output_dimensions 3 2 640 640 (by decide) (by decide)

/-- C8 counterexample: with input width 0 the code raises ZeroDivisionError
(the scale computation divides by the input width), which is not the
InvalidImageError the claim names; no InvalidImageError exists in the
source. -/
theorem letterbox_zero_width_error_counterexample :
    letterbox_image 0 5 640 640 = Except.error PyError.zeroDivisionError ∧
      PyError.zeroDivisionError ≠ PyError.invalidImageError := by
  exact ⟨rfl, by decide⟩

/-- C8 amended: if the decoded image has width 0 or height 0, letterbox_image
fails with ZeroDivisionError (the unguarded division in the scale
computation), not InvalidImageError. -/
theorem letterbox_zero_dims_amended (iw ih w h : ℕ) (h0 : iw = 0 ∨ ih = 0) :
    letterbox_image iw ih w h = Except.error PyError.zeroDivisionError := by
  unfold letterbox_image
  simp [h0]

/-- C8 amended witness: concrete zero-width input. -/
theorem letterbox_zero_dims_amended_witness :
    letterbox_image 5 0 640 640 = Except.error PyError.zeroDivisionError :=
  letterbox_zero_dims_amended 5 0 640 640 (Or.inr rfl)

/-- C5 counterexample: a 2x3 input at target 640x640 has scale 640/3; the
claimed round-to-nearest content width is round(1280/3) = 427, but the code
truncates with int() and resizes to width 426. -/
theorem letterbox_rounding_counterexample :
    letterbox_image 2 3 640 640 = Except.ok ⟨640, 640, 426, 640, 107, 0⟩ ∧
    round ((2 : ℚ) * min ((640 : ℚ) / 2) ((640 : ℚ) / 3)) = 427 ∧
    (426 : ℤ) ≠ 427 := by
  have hmin : min ((640 : ℚ) / 2) ((640 : ℚ) / 3) = 640 / 3 := by norm_num
  refine ⟨?_, ?_, by decide⟩
  · unfold letterbox_image pyInt
    norm_num [hmin, Except.ok.injEq, LetterboxResult.mk.injEq, Int.fdiv]
  · norm_num [hmin, round_eq]

/-- C5 amended: for every input with positive dimensions, the content is
resized to the truncated dimensions (floor of iw*scale and ih*scale, as
Python's int() on these nonnegative values) — truncated, not rounded to
nearest — and pasted at offsets ((W-nw)//2, (H-nh)//2). -/
theorem letterbox_content_truncated (iw ih w h : ℕ)
    (hiw : 1 ≤ iw) (hih : 1 ≤ ih) :
    ∃ r, letterbox_image iw ih w h = Except.ok r ∧
      r.content_w = ⌊(iw : ℚ) * min ((w : ℚ) / (iw : ℚ)) ((h : ℚ) / (ih : ℚ))⌋ ∧
      r.content_h = ⌊(ih : ℚ) * min ((w : ℚ) / (iw : ℚ)) ((h : ℚ) / (ih : ℚ))⌋ ∧
      r.off_x = ((w : ℤ) - r.content_w).fdiv 2 ∧
      r.off_y = ((h : ℤ) - r.content_h).fdiv 2 := by
  have hz : ¬(iw = 0 ∨ ih = 0) := by omega
  have h1 : 0 ≤ (iw : ℚ) * min ((w : ℚ) / (iw : ℚ)) ((h : ℚ) / (ih : ℚ)) := by
    positivity
  have h2 : 0 ≤ (ih : ℚ) * min ((w : ℚ) / (iw : ℚ)) ((h : ℚ) / (ih : ℚ)) := by
    positivity
  unfold letterbox_image pyInt
  simp only [hz, if_false]
  rw [if_pos h1, if_pos h2]
  exact ⟨_, rfl, rfl, rfl, rfl, rfl⟩

/-- C5 amended witness: the concrete 2x3 input at target 640x640. -/
theorem letterbox_content_truncated_witness :
    ∃ r, letterbox_image 2 3 640 640 = Except.ok r ∧
      r.content_w = ⌊(2 : ℚ) * min ((640 : ℚ) / 2) ((640 : ℚ) / 3)⌋ ∧
      r.content_h = ⌊(3 : ℚ) * min ((640 : ℚ) / 2) ((640 : ℚ) / 3)⌋ ∧
      r.off_x = ((640 : ℤ) - r.content_w).fdiv 2 ∧
      r.off_y = ((640 : ℤ) - r.content_h).fdiv 2 := by
  have := letterbox_content_truncated 2 3 640 640 (by decide) (by decide)
  push_cast at this
  exact this

/-- C9: each confidence returned by predict is the raw per-class probability
times 100 rounded (Python round, half to even) to 2 decimals, hence in
[0, 100] for probabilities in [0, 1]; each timing is the model-reported
millisecond duration divided by 1000 and rounded to 4 decimals. -/
theorem predict_confidence_timing_rounding
    (class_names_binary : List String) (probs_binary : List ℚ)
    (speed_binary : List (String × ℚ))
    (class_names_dx : List String) (probs_dx : List ℚ)
    (speed_dx : List (String × ℚ))
    (q : ℚ) (h0 : 0 ≤ q) (h1 : q ≤ 1) :
    (predict class_names_binary probs_binary speed_binary
        class_names_dx probs_dx speed_dx).binary_prediction
        = (class_names_binary.zip probs_binary).map
            (fun p => (p.1, pyRound (p.2 * 100) 2)) ∧
    (predict class_names_binary probs_binary speed_binary
        class_names_dx probs_dx speed_dx).dx_prediction
        = (class_names_dx.zip probs_dx).map
            (fun p => (p.1, pyRound (p.2 * 100) 2)) ∧
    (predict class_names_binary probs_binary speed_binary
        class_names_dx probs_dx speed_dx).processing_time_binary
        = speed_binary.map (fun p => (p.1, pyRound (p.2 / 1000) 4)) ∧
    (predict class_names_binary probs_binary speed_binary
        class_names_dx probs_dx speed_dx).processing_time_dx
        = speed_dx.map (fun p => (p.1, pyRound (p.2 / 1000) 4)) ∧
    0 ≤ pyRound (q * 100) 2 ∧ pyRound (q * 100) 2 ≤ 100 := by
  refine ⟨rfl, rfl, rfl, rfl, ?_, ?_⟩
  · exact pyRound_nonneg (q * 100) 2 (by positivity)
  · have : pyRound (q * 100) 2 ≤ ((100 : ℤ) : ℚ) :=
      pyRound_le_intBound (q * 100) 2 100 (by push_cast; linarith)
    push_cast at this
    linarith

/-- C9 witness: a concrete two-class binary model output, a one-class dx
output, one timing entry, and the probability 997/1000. -/
theorem predict_confidence_timing_rounding_witness :
    (predict ["malignant", "benign"] [(93 : ℚ) / 100, 7 / 100]
        [("inference", (52 : ℚ))] ["nevus"] [(1 : ℚ) / 2] []).binary_prediction
        = ((["malignant", "benign"] : List String).zip
            [(93 : ℚ) / 100, 7 / 100]).map
            (fun p => (p.1, pyRound (p.2 * 100) 2)) ∧
    (predict ["malignant", "benign"] [(93 : ℚ) / 100, 7 / 100]
        [("inference", (52 : ℚ))] ["nevus"] [(1 : ℚ) / 2] []).dx_prediction
        = ((["nevus"] : List String).zip [(1 : ℚ) / 2]).map
            (fun p => (p.1, pyRound (p.2 * 100) 2)) ∧
    (predict ["malignant", "benign"] [(93 : ℚ) / 100, 7 / 100]
        [("inference", (52 : ℚ))] ["nevus"] [(1 : ℚ) / 2]
        []).processing_time_binary
        = [("inference", (52 : ℚ))].map
            (fun p => (p.1, pyRound (p.2 / 1000) 4)) ∧
    (predict ["malignant", "benign"] [(93 : ℚ) / 100, 7 / 100]
        [("inference", (52 : ℚ))] ["nevus"] [(1 : ℚ) / 2]
        []).processing_time_dx
        = ([] : List (String × ℚ)).map
            (fun p => (p.1, pyRound (p.2 / 1000) 4)) ∧
    0 ≤ pyRound ((997 : ℚ) / 1000 * 100) 2 ∧
    pyRound ((997 : ℚ) / 1000 * 100) 2 ≤ 100 :=
  predict_confidence_timing_rounding ["malignant", "benign"]
    [(93 : ℚ) / 100, 7 / 100] [("inference", (52 : ℚ))] ["nevus"]
    [(1 : ℚ) / 2] [] ((997 : ℚ) / 1000) (by norm_num) (by norm_num)

/-- C2: in the binary accuracy computation, every record whose ground truth is
malignant or benign contributes a (y_true, y_pred) pair — the pair list is as
long as the list of such records — and when the AI prediction is null or
missing the malignant/benign keys the predicted class is 0 (benign), in both
the comparison script and the standalone evaluator. -/
theorem binary_accuracy_failed_prediction_defaults_benign
    (rows : List AnalysisRow) (r : AnalysisRow)
    (hmem : r ∈ rows)
    (hgt : r.ground_truth_binary = some "malignant" ∨
      r.ground_truth_binary = some "benign")
    (hfail : aiPredFailed r.ai_prediction) :
    extract_binary_pred r.ai_prediction = 0 ∧
    (evaluate_binary_extract r.ai_prediction).1 = 0 ∧
    (binary_mapping_lookup r.ground_truth_binary).isSome = true ∧
    (binary_pairs rows).length =
      (rows.filter
        (fun x => (binary_mapping_lookup x.ground_truth_binary).isSome)).length ∧
    1 ≤ (binary_pairs rows).length := by
  have hsome : (binary_mapping_lookup r.ground_truth_binary).isSome = true := by
    rcases hgt with h | h <;> simp [binary_mapping_lookup, h]
  have hext : extract_binary_pred r.ai_prediction = 0 ∧
      (evaluate_binary_extract r.ai_prediction).1 = 0 := by
    rcases hfail with h | ⟨pdata, hp, hk⟩
    · simp [h, extract_binary_pred, evaluate_binary_extract]
    · rcases hk with hk | hk
      · cases hd : dictGet pdata.binary_prediction "benign" <;>
          simp [extract_binary_pred, evaluate_binary_extract, hp, hk, hd]
      · cases hd : dictGet pdata.binary_prediction "malignant" <;>
          simp [extract_binary_pred, evaluate_binary_extract, hp, hk, hd]
  have hmemf : r ∈ rows.filter
      (fun x => (binary_mapping_lookup x.ground_truth_binary).isSome) :=
    List.mem_filter.mpr ⟨hmem, hsome⟩
  have hpos : 0 < (rows.filter
      (fun x => (binary_mapping_lookup x.ground_truth_binary).isSome)).length :=
    List.length_pos.mpr (List.ne_nil_of_mem hmemf)
  refine ⟨hext.1, hext.2, hsome, binary_pairs_length rows, ?_⟩
  rw [binary_pairs_length rows]
  omega

/-- C2 witness: a single record with malignant ground truth and a null AI
prediction. -/
theorem binary_accuracy_failed_default_witness :
    extract_binary_pred
        (AnalysisRow.mk (some "malignant") none none).ai_prediction = 0 ∧
    (evaluate_binary_extract
        (AnalysisRow.mk (some "malignant") none none).ai_prediction).1 = 0 ∧
    (binary_mapping_lookup
        (AnalysisRow.mk (some "malignant") none none).ground_truth_binary).isSome
      = true ∧
    (binary_pairs [AnalysisRow.mk (some "malignant") none none]).length =
      ([AnalysisRow.mk (some "malignant") none none].filter
        (fun x => (binary_mapping_lookup x.ground_truth_binary).isSome)).length ∧
    1 ≤ (binary_pairs [AnalysisRow.mk (some "malignant") none none]).length :=
  binary_accuracy_failed_prediction_defaults_benign
    [AnalysisRow.mk (some "malignant") none none]
    (AnalysisRow.mk (some "malignant") none none)
    (List.mem_singleton.mpr rfl) (Or.inl rfl) (Or.inl rfl)

/-- C3: with a nonempty comparable set, the agreement rate is exactly the
match fraction over the comparable pairs and the kappa is exactly the kappa
statistic of the comparable pairs; two input quadruples with the same
comparable pairs give the same agreement rate and kappa (so records outside
the intersection influence neither); a pair is comparable exactly when both
sides are resolvable, i.e. present and not unknown. -/
theorem agreement_metrics_intersection_only
    (isskin_preds doctor_preds ground_truth : List (Option String))
    (analysis_df : List AnalysisRow) (ct : ClassificationType)
    (isskin_preds2 doctor_preds2 ground_truth2 : List (Option String))
    (analysis_df2 : List AnalysisRow)
    (hne : comparable_pairs isskin_preds doctor_preds ≠ [])
    (hsame : comparable_pairs isskin_preds2 doctor_preds2 =
      comparable_pairs isskin_preds doctor_preds) :
    (calculate_agreement_and_accuracy isskin_preds doctor_preds ground_truth
        analysis_df ct).agreement_rate =
      (((comparable_pairs isskin_preds doctor_preds).filter
          (fun p => p.1 == p.2)).length : ℚ) /
        ((comparable_pairs isskin_preds doctor_preds).length : ℚ) ∧
    (calculate_agreement_and_accuracy isskin_preds doctor_preds ground_truth
        analysis_df ct).cohen_kappa =
      cohen_kappa_score
        ((comparable_pairs isskin_preds doctor_preds).map (fun p => p.1))
        ((comparable_pairs isskin_preds doctor_preds).map (fun p => p.2)) ∧
    (calculate_agreement_and_accuracy isskin_preds2 doctor_preds2 ground_truth2
        analysis_df2 ct).agreement_rate =
      (calculate_agreement_and_accuracy isskin_preds doctor_preds ground_truth
        analysis_df ct).agreement_rate ∧
    (calculate_agreement_and_accuracy isskin_preds2 doctor_preds2 ground_truth2
        analysis_df2 ct).cohen_kappa =
      (calculate_agreement_and_accuracy isskin_preds doctor_preds ground_truth
        analysis_df ct).cohen_kappa ∧
    (∀ x : Option String,
      resolvable x = true ↔ x ≠ none ∧ x ≠ some "unknown") ∧
    comparable_pairs isskin_preds doctor_preds =
      (isskin_preds.zip doctor_preds).filter
        (fun p => resolvable p.1 && resolvable p.2) := by
  have hpos : 0 < (comparable_pairs isskin_preds doctor_preds).length :=
    List.length_pos.mpr hne
  have hpos2 : 0 < (comparable_pairs isskin_preds2 doctor_preds2).length := by
    rw [hsame]; exact hpos
  have hrate :
      (calculate_agreement_and_accuracy isskin_preds doctor_preds ground_truth
        analysis_df ct).agreement_rate =
      (((comparable_pairs isskin_preds doctor_preds).filter
          (fun p => p.1 == p.2)).length : ℚ) /
        ((comparable_pairs isskin_preds doctor_preds).length : ℚ) := by
    simp only [calculate_agreement_and_accuracy]
    simp only [if_pos hpos]
    rw [count_true_map_eq_length_filter, List.length_map]
  have hkappa :
      (calculate_agreement_and_accuracy isskin_preds doctor_preds ground_truth
        analysis_df ct).cohen_kappa =
      cohen_kappa_score
        ((comparable_pairs isskin_preds doctor_preds).map (fun p => p.1))
        ((comparable_pairs isskin_preds doctor_preds).map (fun p => p.2)) := by
    simp only [calculate_agreement_and_accuracy]
    simp only [if_pos hpos]
  have hrate2 :
      (calculate_agreement_and_accuracy isskin_preds2 doctor_preds2
        ground_truth2 analysis_df2 ct).agreement_rate =
      (((comparable_pairs isskin_preds doctor_preds).filter
          (fun p => p.1 == p.2)).length : ℚ) /
        ((comparable_pairs isskin_preds doctor_preds).length : ℚ) := by
    simp only [calculate_agreement_and_accuracy]
    simp only [hsame]
    simp only [if_pos hpos]
    rw [count_true_map_eq_length_filter, List.length_map]
  have hkappa2 :
      (calculate_agreement_and_accuracy isskin_preds2 doctor_preds2
        ground_truth2 analysis_df2 ct).cohen_kappa =
      cohen_kappa_score
        ((comparable_pairs isskin_preds doctor_preds).map (fun p => p.1))
        ((comparable_pairs isskin_preds doctor_preds).map (fun p => p.2)) := by
    simp only [calculate_agreement_and_accuracy]
    simp only [hsame]
    simp only [if_pos hpos]
  refine ⟨hrate, hkappa, by rw [hrate, hrate2], by rw [hkappa, hkappa2],
    ?_, rfl⟩
  intro x
  cases x with
  | none => simp [resolvable]
  | some s => simp [resolvable]

/-- C3 witness: three records of which only the first is comparable, against
a reduced input holding just that comparable record. -/
theorem agreement_metrics_intersection_witness :
    (calculate_agreement_and_accuracy
        [some "melanoma", some "unknown", none]
        [some "melanoma", some "nevus", some "bcc"] [] []
        ClassificationType.binary).agreement_rate =
      (((comparable_pairs [some "melanoma", some "unknown", none]
          [some "melanoma", some "nevus", some "bcc"]).filter
          (fun p => p.1 == p.2)).length : ℚ) /
        ((comparable_pairs [some "melanoma", some "unknown", none]
          [some "melanoma", some "nevus", some "bcc"]).length : ℚ) ∧
    (calculate_agreement_and_accuracy
        [some "melanoma", some "unknown", none]
        [some "melanoma", some "nevus", some "bcc"] [] []
        ClassificationType.binary).cohen_kappa =
      cohen_kappa_score
        ((comparable_pairs [some "melanoma", some "unknown", none]
          [some "melanoma", some "nevus", some "bcc"]).map (fun p => p.1))
        ((comparable_pairs [some "melanoma", some "unknown", none]
          [some "melanoma", some "nevus", some "bcc"]).map (fun p => p.2)) ∧
    (calculate_agreement_and_accuracy [some "melanoma"] [some "melanoma"]
        [] [] ClassificationType.binary).agreement_rate =
      (calculate_agreement_and_accuracy
        [some "melanoma", some "unknown", none]
        [some "melanoma", some "nevus", some "bcc"] [] []
        ClassificationType.binary).agreement_rate ∧
    (calculate_agreement_and_accuracy [some "melanoma"] [some "melanoma"]
        [] [] ClassificationType.binary).cohen_kappa =
      (calculate_agreement_and_accuracy
        [some "melanoma", some "unknown", none]
        [some "melanoma", some "nevus", some "bcc"] [] []
        ClassificationType.binary).cohen_kappa ∧
    (∀ x : Option String,
      resolvable x = true ↔ x ≠ none ∧ x ≠ some "unknown") ∧
    comparable_pairs [some "melanoma", some "unknown", none]
        [some "melanoma", some "nevus", some "bcc"] =
      (([some "melanoma", some "unknown", none] :
          List (Option String)).zip
        [some "melanoma", some "nevus", some "bcc"]).filter
        (fun p => resolvable p.1 && resolvable p.2) :=
  agreement_metrics_intersection_only
    [some "melanoma", some "unknown", none]
    [some "melanoma", some "nevus", some "bcc"] [] []
    ClassificationType.binary [some "melanoma"] [some "melanoma"] [] []
    (by decide) (by decide)

/-- C6 counterexample: on empty input the scorer's disagreement rate is
1 - 0 = 1, not 0, so not every metric in the result is zero. -/
theorem scorer_empty_nonzero_disagreement :
    (calculate_agreement_and_accuracy [] [] [] []
      ClassificationType.binary).disagreement_rate ≠ 0 := by
  simp [calculate_agreement_and_accuracy, comparable_pairs,
    calculate_isskin_accuracy_binary, binary_pairs]

/-- C6 amended: on empty input the scorer returns a result (the embedding is
total, mirroring that the source guards every statistics call) in which every
metric is zero except the disagreement rate, which is 1 - 0 = 1. -/
theorem scorer_empty_amended (ct : ClassificationType) :
    (calculate_agreement_and_accuracy [] [] [] [] ct).agreement_rate = 0 ∧
    (calculate_agreement_and_accuracy [] [] [] [] ct).cohen_kappa = 0 ∧
    (calculate_agreement_and_accuracy [] [] [] [] ct).isskin_accuracy = 0 ∧
    (calculate_agreement_and_accuracy [] [] [] [] ct).doctor_accuracy = 0 ∧
    (calculate_agreement_and_accuracy [] [] [] [] ct).accuracy_difference = 0 ∧
    (calculate_agreement_and_accuracy [] [] [] [] ct).agreements = 0 ∧
    (calculate_agreement_and_accuracy [] [] [] [] ct).disagreements = 0 ∧
    (calculate_agreement_and_accuracy [] [] [] []
      ct).total_isskin_predictions = 0 ∧
    (calculate_agreement_and_accuracy [] [] [] []
      ct).total_doctor_predictions = 0 ∧
    (calculate_agreement_and_accuracy [] [] [] []
      ct).total_comparable_cases = 0 ∧
    (calculate_agreement_and_accuracy [] [] [] [] ct).disagreement_rate = 1 := by
  cases ct <;>
    simp [calculate_agreement_and_accuracy, comparable_pairs,
      calculate_isskin_accuracy_binary, calculate_isskin_accuracy_dx,
      binary_pairs, dx_pairs]

/-- C10: in the returned dict the agreements field counts the comparable
records where AI and doctor differ, the disagreements field counts those
where they agree (the two labels are swapped relative to their names), and
their sum is the comparable-case total. -/
theorem agreements_disagreements_swapped_fields
    (isskin_preds doctor_preds ground_truth : List (Option String))
    (analysis_df : List AnalysisRow) (ct : ClassificationType)
    (hne : comparable_pairs isskin_preds doctor_preds ≠ []) :
    (calculate_agreement_and_accuracy isskin_preds doctor_preds ground_truth
        analysis_df ct).agreements =
      ((comparable_pairs isskin_preds doctor_preds).filter
        (fun p => !(p.1 == p.2))).length ∧
    (calculate_agreement_and_accuracy isskin_preds doctor_preds ground_truth
        analysis_df ct).disagreements =
      ((comparable_pairs isskin_preds doctor_preds).filter
        (fun p => p.1 == p.2)).length ∧
    (calculate_agreement_and_accuracy isskin_preds doctor_preds ground_truth
        analysis_df ct).agreements +
      (calculate_agreement_and_accuracy isskin_preds doctor_preds ground_truth
        analysis_df ct).disagreements =
      (calculate_agreement_and_accuracy isskin_preds doctor_preds ground_truth
        analysis_df ct).total_comparable_cases := by
  have hpos : 0 < (comparable_pairs isskin_preds doctor_preds).length :=
    List.length_pos.mpr hne
  have hie : ((comparable_pairs isskin_preds doctor_preds).map
      (fun p => p.1 == p.2)).isEmpty = false := by
    simp [List.isEmpty_iff, List.map_eq_nil_iff, hne]
  have hcount := count_true_map_eq_length_filter
    (fun p : Option String × Option String => p.1 == p.2)
    (comparable_pairs isskin_preds doctor_preds)
  have hsplit := count_false_map_eq_length_filter_not
    (fun p : Option String × Option String => p.1 == p.2)
    (comparable_pairs isskin_preds doctor_preds)
  simp only [calculate_agreement_and_accuracy]
  simp only [if_pos hpos]
  simp only [hie, Bool.false_eq_true, if_false]
  refine ⟨?_, hcount, ?_⟩ <;>
    simp only [List.length_map] <;> omega

/-- C10 witness: two comparable records, one agreeing and one differing. -/
theorem agreements_swapped_fields_witness :
    (calculate_agreement_and_accuracy [some "bcc", some "bcc"]
        [some "bcc", some "nevus"] [] [] ClassificationType.dx).agreements =
      ((comparable_pairs [some "bcc", some "bcc"]
          [some "bcc", some "nevus"]).filter
        (fun p => !(p.1 == p.2))).length ∧
    (calculate_agreement_and_accuracy [some "bcc", some "bcc"]
        [some "bcc", some "nevus"] [] [] ClassificationType.dx).disagreements =
      ((comparable_pairs [some "bcc", some "bcc"]
          [some "bcc", some "nevus"]).filter
        (fun p => p.1 == p.2)).length ∧
    (calculate_agreement_and_accuracy [some "bcc", some "bcc"]
        [some "bcc", some "nevus"] [] [] ClassificationType.dx).agreements +
      (calculate_agreement_and_accuracy [some "bcc", some "bcc"]
        [some "bcc", some "nevus"] [] [] ClassificationType.dx).disagreements =
      (calculate_agreement_and_accuracy [some "bcc", some "bcc"]
        [some "bcc", some "nevus"] [] []
        ClassificationType.dx).total_comparable_cases :=
  agreements_disagreements_swapped_fields [some "bcc", some "bcc"]
    [some "bcc", some "nevus"] [] [] ClassificationType.dx (by decide)

end Isskin
